import Mathlib

/-!
Shallow embedding of the core analysis engine of the household-expense
tracker `app.py` (a Streamlit web app).

Conventions used throughout:

* Monetary amounts are modelled as rationals (`ℚ`); the Python source
  computes with machine floats, but every claim under study is about the
  exact algebraic form of the computed values.
* Calendar dates are modelled as integer day numbers (`Int`), so the
  `.days` field of a pandas `Timedelta` between two dates is plain
  integer subtraction.  The date column of a dataset may hold either a
  not-yet-parsed date string (constructor `DateVal.raw d`, a string
  standing for day `d`) or an already parsed `pandas.Timestamp`
  (constructor `DateVal.ts d`); `pd.to_datetime` of a single value is
  `DateVal.parse` packaged as a `Timestamp` again.
* `str.lower()` is modelled by `toLowerChars`, a character-wise
  lower-casing of the underlying character list; every string appearing
  in the keyword table, the category names and the trigger-keyword lists
  is Korean and has no case, so the model only has to be faithful on the
  ASCII range, which character-wise lower-casing is.
* The Python substring test `needle in haystack` is `containsSub`,
  contiguous-substring containment on the underlying character lists.
-/

namespace Household

/-- The static table `CATEGORY_KEYWORDS` of `app.py` (lines 32-41), in its
declaration order: 식비 (Food), 교통비 (Transport), 쇼핑 (Shopping),
생활비 (Living), 의료 (Medical), 교육 (Education), 오락 (Entertainment),
기타 (Other, with no keywords). -/
def CATEGORY_KEYWORDS : List (String × List String) :=
  [("식비", ["음식", "식당", "배달", "카페", "커피", "점심", "저녁", "아침", "간식", "치킨", "피자", "햄버거"]),
   ("교통비", ["버스", "지하철", "택시", "기차", "주유", "주차", "통행료", "교통", "이동"]),
   ("쇼핑", ["옷", "신발", "가방", "화장품", "의류", "쇼핑", "온라인", "마켓"]),
   ("생활비", ["전기", "가스", "수도", "인터넷", "통신", "관리비", "공과금"]),
   ("의료", ["병원", "약국", "의료", "치과", "검진", "약"]),
   ("교육", ["학원", "책", "강의", "교육", "학습", "교재"]),
   ("오락", ["영화", "게임", "놀이", "취미", "여가", "콘서트"]),
   ("기타", [])]

/-- Python `str.lower()`: character-wise lower-casing, on the underlying
character list of a string. -/
def toLowerChars (s : String) : List Char := s.data.map Char.toLower

/-- Whether `needle` is a prefix of `haystack` (character lists). -/
def charsPrefix : List Char → List Char → Bool
  | [], _ => true
  | _ :: _, [] => false
  | a :: as, b :: bs => a == b && charsPrefix as bs

/-- The Python substring test `needle in haystack`: `needle` occurs as a
contiguous substring of `haystack` (the empty needle always matches). -/
def containsSub (needle : List Char) : List Char → Bool
  | [] => charsPrefix needle []
  | c :: t => charsPrefix needle (c :: t) || containsSub needle t

/-- The inner scoring loop of `recommend_category` (lines 89-92): for each
keyword, add 1 when the keyword occurs as a substring of the lower-cased
product name, i.e. the number of keywords whose substring test passes. -/
def scoreAgainst (product_lower : List Char) (kws : List String) : Nat :=
  kws.countP (fun kw => containsSub kw.data product_lower)

/-- The `scores` dictionary built by `recommend_category` (lines 86-93),
as an association list in the declaration order of `CATEGORY_KEYWORDS`
(Python dictionaries iterate in insertion order). -/
def scoresOf (product_name : String) : List (String × Nat) :=
  CATEGORY_KEYWORDS.map (fun ck => (ck.1, scoreAgainst (toLowerChars product_name) ck.2))

/-- Python `max(scores.values())` (line 96), as a recursive maximum with
base value 0 (the scores list is never empty, and all scores are `Nat`,
so the base value is inert). -/
def maxVal : List (String × Nat) → Nat
  | [] => 0
  | p :: l => max p.2 (maxVal l)

/-- Python `max(scores, key=scores.get)` (line 97) iterates over the
entries keeping the current best and replacing it only on a strictly
greater value, so the first entry attaining the maximum wins ties. -/
def pyMaxFold (p : String × Nat) (l : List (String × Nat)) : String × Nat :=
  l.foldl (fun best q => if best.2 < q.2 then q else best) p

/-- `max(scores, key=scores.get)` on the whole (nonempty) scores list.
The `[]` case is unreachable because the keyword table has 8 entries. -/
def pyMaxOf : List (String × Nat) → String
  | [] => "기타"
  | p :: l => (pyMaxFold p l).1

/-- `recommend_category` of `app.py` (lines 77-98): empty product name
gives "기타"; otherwise score every category and return the best-scoring
one when some score is positive, else "기타". -/
def recommend_category (product_name : String) : String :=
  if product_name = "" then "기타"
  else if 0 < maxVal (scoresOf product_name) then pyMaxOf (scoresOf product_name)
  else "기타"


/-- `calculate_price` of `app.py` (lines 116-130).  `price_type` is the
string `"unit"` or `"total"`; any other string takes the `else` branch,
exactly as in the source.  Returns `(unit_price, total_price)`. -/
def calculate_price (price : ℚ) (quantity : Int) (price_type : String) : ℚ × ℚ :=
  if price_type = "unit" then
    (price, if 0 < quantity then price * (quantity : ℚ) else price)
  else
    ((if 0 < quantity then price / (quantity : ℚ) else price), price)

/-- A value of the `날짜` (date) column: either a date string that has not
been parsed yet (`raw d`, a string denoting day `d`) or a parsed
`pandas.Timestamp` for day `d` (`ts d`).  In Python these are distinct
objects: a string is never equal to the `Timestamp` obtained by parsing
it. -/
inductive DateVal where
  | raw (d : Int)
  | ts (d : Int)
deriving DecidableEq

/-- The day denoted by a date value. -/
def DateVal.parse : DateVal → Int
  | .raw d => d
  | .ts d => d

/-- Whether a date value is already a parsed `Timestamp`. -/
def DateVal.isParsed : DateVal → Bool
  | .raw _ => false
  | .ts _ => true

/-- One row of the dataset, with the seven columns created by the entry
flow of `app.py` (lines 406-414): 날짜, 품목, 제품명, 가격, 개수,
개당가격, 전체가격. -/
structure Record where
  date : DateVal
  category : String
  product : String
  price : ℚ
  quantity : Int
  unitPrice : ℚ
  totalPrice : ℚ
deriving DecidableEq

/-- The effect of `df['날짜'] = parse_date_series(df['날짜'])` on one row:
the date cell is replaced by its parsed `Timestamp`. -/
def parseRecordDate (r : Record) : Record := { r with date := .ts r.date.parse }

/-- The dataset after the in-place date-column assignment
`df['날짜'] = parse_date_series(df['날짜'])` (lines 140 and 191). -/
def parsedOf (df : List Record) : List Record := df.map parseRecordDate

/-- Date-range filtering common to `analyze_expenditure` (lines 141-142)
and `ai_analysis` (lines 192-193): keep rows with
`start_date ≤ 날짜 ≤ end_date`, applied to the already re-parsed
dataset. -/
def filteredBy (df : List Record) (s e : Int) : List Record :=
  (parsedOf df).filter (fun r => decide (s ≤ r.date.parse ∧ r.date.parse ≤ e))

/-- Sum of the `전체가격` column (pandas `['전체가격'].sum()`). -/
def totalOf (rs : List Record) : ℚ := (rs.map (fun r => r.totalPrice)).sum

/-- `groupby('품목')['전체가격'].sum()` as an association list: one entry
per distinct category of `rs`, mapping it to the summed `전체가격` of its
rows.  pandas additionally orders the groups (and `analyze_expenditure`
re-sorts them by descending sum for display); no claim under study
depends on the order of the entries, so the embedding keeps them keyed by
the deduplicated category list. -/
def categorySums (rs : List Record) : List (String × ℚ) :=
  ((rs.map (fun r => r.category)).dedup).map
    (fun c => (c, totalOf (rs.filter (fun r => r.category = c))))

/-- `['제품명'].value_counts()` as an association list in first-seen
order: one entry per distinct product name with its row count.  pandas
orders the entries by descending count and `analyze_expenditure` displays
only the first five; no claim under study depends on that ordering or
truncation, so the embedding keeps the plain counts. -/
def productFrequency (rs : List Record) : List (String × Nat) :=
  ((rs.map (fun r => r.product)).dedup).map
    (fun p => (p, (rs.filter (fun r => r.product = p)).length))

/-- The Python truthiness test `if category_filter:` (line 148) followed
by the category restriction (line 149): `None` and the empty string leave
the rows untouched. -/
def applyCategoryFilter (filter? : Option String) (rs : List Record) : List Record :=
  match filter? with
  | none => rs
  | some c => if c = "" then rs else rs.filter (fun r => r.category = c)

/-- Result of `analyze_expenditure`: one of the three "no data" messages
(lines 137, 145, 152) or the analysis report (lines 154-181) carrying
total, mean, row count, per-category sums, and product purchase counts. -/
inductive AnalyzeResult where
  | noData
  | noDataInPeriod
  | noDataMatching
  | report (total avg : ℚ) (count : Nat) (byCategory : List (String × ℚ))
      (products : List (String × Nat))
deriving DecidableEq

/-- `analyze_expenditure` of `app.py` (lines 132-181).  Besides the
result value, it returns the dataset as the caller observes it after the
call: the in-place assignment `df['날짜'] = parse_date_series(df['날짜'])`
(line 140) runs only on the non-empty branch.  The rendered percentage
strings (line 174) and the top-5 display truncation (line 178) are
presentation of the returned fields and are not modelled separately. -/
def analyze_expenditure (df : List Record) (s e : Int)
    (category_filter : Option String) : AnalyzeResult × List Record :=
  if df.isEmpty then (.noData, df)
  else if (filteredBy df s e).isEmpty then (.noDataInPeriod, parsedOf df)
  else
    let filtered := applyCategoryFilter category_filter (filteredBy df s e)
    if filtered.isEmpty then (.noDataMatching, parsedOf df)
    else
      (.report (totalOf filtered) (totalOf filtered / (filtered.length : ℚ))
        filtered.length (categorySums filtered) (productFrequency filtered),
       parsedOf df)

/-- `(pd.to_datetime(end_date) - pd.to_datetime(start_date)).days`
(line 199): day difference between the requested range ends. -/
def daysBetween (s e : Int) : Int := e - s

/-- `period_days = max((end - start).days, 1)` (line 199). -/
def periodDays (s e : Int) : Int := max (daysBetween s e) 1

/-- The previous-window rows of `ai_analysis` (lines 200-203):
`prev_start = start - period_days`, `prev_end = start`, and
`prev_df = df[(날짜 >= prev_start) & (날짜 < prev_end)]`, taken from the
full re-parsed dataset. -/
def prevWindow (df : List Record) (s e : Int) : List Record :=
  (parsedOf df).filter
    (fun r => decide (s - periodDays s e ≤ r.date.parse ∧ r.date.parse < s))

/-- `filtered_df['날짜'].max()` as a day number (0 if the list is empty,
which never happens where it is used). -/
def maxDate (rs : List Record) : Int := ((rs.map (fun r => r.date.parse)).max?).getD 0

/-- `filtered_df['날짜'].min()` as a day number (0 if the list is empty,
which never happens where it is used). -/
def minDate (rs : List Record) : Int := ((rs.map (fun r => r.date.parse)).min?).getD 0

/-- `current_days = max((날짜.max() - 날짜.min()).days + 1, 1)`
(line 215): the day span of the filtered rows themselves. -/
def currentDays (rs : List Record) : Int := max ((maxDate rs - minDate rs) + 1) 1

/-- The comparison clause of the trend summary (lines 219-228): either a
percentage change against the previous window, the remark that the
previous period had no spending (`"이전 기간에는 지출이 없었습니다."`), or
the remark that no comparable previous-period data exists
(`"비교 가능한 이전 기간 데이터가 없습니다."`).  The rendered string shows
`abs change` together with the direction word chosen by `change > 0`, so
the raw signed change carries the same information. -/
inductive TrendCmp where
  | pct (change : ℚ)
  | prevNoSpending
  | noComparable
deriving DecidableEq

/-- The quantities of the trend section (lines 214-230): current-window
total, daily average, and the comparison clause. -/
structure TrendSummary where
  total : ℚ
  dailyAvg : ℚ
  cmp : TrendCmp
deriving DecidableEq

/-- The comparison clause of one category-detail line (lines 248-255):
percentage change when the previous amount is positive, the
`"신규 지출"` (new spending) remark when the previous window is nonempty,
and no comparison text when it is empty. -/
inductive CatCmp where
  | pct (change : ℚ)
  | newSpending
  | noPrev
deriving DecidableEq

/-- One line of the category-detail section (lines 251-255): category,
current amount, share of current total (in percent), comparison clause. -/
structure CatLine where
  category : String
  amount : ℚ
  share : ℚ
  cmp : CatCmp
deriving DecidableEq

/-- The keyword list gating `wants_category_detail` (line 209). -/
def detailKeywords : List String := ["지출", "항목", "카테고리"]

/-- `categories_requested = [cat for cat in CATEGORY_KEYWORDS if
cat.lower() in query_lower]` (line 236): the category names occurring
verbatim (lower-cased) in the query, in declaration order. -/
def categoriesRequested (q : String) : List String :=
  (CATEGORY_KEYWORDS.map Prod.fst).filter
    (fun c => containsSub (toLowerChars c) (toLowerChars q))

/-- `prev_category_exp.get(category, 0)` (line 247): the previous-window
sum for a category, 0 when the category is absent. -/
def prevCatAmount (prev_df : List Record) (c : String) : ℚ :=
  ((categorySums prev_df).lookup c).getD 0

/-- The structured content of an `ai_analysis` report.  The
purchase-pattern ("소비 패턴 관찰", lines 260-293) and feedback
("개선 제안", lines 295-314) sections are presentation built from the
same aggregates and are not referenced by any claim under study, so the
embedding carries the trend section and the optional category-detail
section (`none` when the gate on line 257 does not fire). -/
structure AiReport where
  trend : TrendSummary
  categoryDetail : Option (List CatLine)
deriving DecidableEq

/-- `wants_category_detail` (line 209): a generic detail keyword or any
category name occurs in the lower-cased query. -/
def wantsCategoryDetail (q : String) : Bool :=
  detailKeywords.any (fun k => containsSub (toLowerChars k) (toLowerChars q))
    || CATEGORY_KEYWORDS.any (fun ck => containsSub (toLowerChars ck.1) (toLowerChars q))

/-- `focus_categories` (line 237): the requested categories when some were
named in the query, otherwise all categories present in the current
window. -/
def focusCategories (df : List Record) (s e : Int) (q : String) : List String :=
  if (categoriesRequested q).isEmpty then (categorySums (filteredBy df s e)).map Prod.fst
  else categoriesRequested q

/-- One iteration of the category-detail loop (lines 242-255): `none`
models the `continue` taken when the category has no current-window rows
(line 243-244), otherwise the assembled line with amount, share and
comparison clause. -/
def catLineFor (df : List Record) (s e : Int) (c : String) : Option CatLine :=
  match (categorySums (filteredBy df s e)).lookup c with
  | none => none
  | some amount =>
    let current_total := totalOf (filteredBy df s e)
    let prev_df := prevWindow df s e
    let share := if 0 < current_total then amount / current_total * 100 else 0
    let prev_amount := if prev_df.isEmpty then 0 else prevCatAmount prev_df c
    some { category := c, amount := amount, share := share,
           cmp := if 0 < prev_amount then
                    CatCmp.pct ((amount - prev_amount) / prev_amount * 100)
                  else if prev_df.isEmpty then CatCmp.noPrev
                  else CatCmp.newSpending }

/-- `category_focus` (lines 234-255): the category-detail lines collected
over the focus categories, skipping categories with no current-window
rows. -/
def categoryFocus (df : List Record) (s e : Int) (q : String) : List CatLine :=
  (focusCategories df s e q).filterMap (catLineFor df s e)

/-- The body of `ai_analysis` past the empty-data early returns
(lines 198-258), assembling the trend section and the category-detail
section. -/
def mkReport (df : List Record) (s e : Int) (q : String) : AiReport :=
  let filtered := filteredBy df s e
  let prev_df := prevWindow df s e
  let current_total := totalOf filtered
  let daily_avg := current_total / ((currentDays filtered : Int) : ℚ)
  let cmp :=
    if prev_df.isEmpty then TrendCmp.noComparable
    else if 0 < totalOf prev_df then
      TrendCmp.pct ((current_total - totalOf prev_df) / totalOf prev_df * 100)
    else TrendCmp.prevNoSpending
  let category_focus := categoryFocus df s e q
  let categoryDetail :=
    if ¬ category_focus.isEmpty
        ∧ (wantsCategoryDetail q ∨ ¬ (categoriesRequested q).isEmpty)
    then some (category_focus.take 5) else none
  { trend := { total := current_total, dailyAvg := daily_avg, cmp := cmp },
    categoryDetail := categoryDetail }

/-- Result of `ai_analysis`: one of the two "no data" messages (lines 188
and 196) or the assembled report. -/
inductive AiResult where
  | noData
  | noDataInPeriod
  | report (r : AiReport)
deriving DecidableEq

/-- `ai_analysis` of `app.py` (lines 183-321).  As for
`analyze_expenditure`, the second component is the dataset as the caller
observes it after the call (the in-place date re-parse on line 191 runs
only on the non-empty branch). -/
def ai_analysis (df : List Record) (s e : Int) (q : String) : AiResult × List Record :=
  if df.isEmpty then (.noData, df)
  else if (filteredBy df s e).isEmpty then (.noDataInPeriod, parsedOf df)
  else (.report (mkReport df s e q), parsedOf df)

/-- The trend section of an `ai_analysis` result, when one was produced. -/
def trendOf : AiResult → Option TrendSummary
  | .report r => some r.trend
  | _ => none

/-- The comparison clause of the trend section, when one was produced. -/
def trendCmpOf (res : AiResult) : Option TrendCmp := (trendOf res).map (fun t => t.cmp)

/-- The category-detail section of an `ai_analysis` result, when the
section was produced. -/
def categoryDetailOf : AiResult → Option (List CatLine)
  | .report r => r.categoryDetail
  | _ => none

/-- The tie-break rule as the specification states it: among the score
table's entries, in declaration order, the first one attaining the
maximal score (`none` only for an empty table, which never occurs).
This definition follows the spec's wording and is compared against the
code's `recommend_category` in the tie-break claim. -/
def firstMaxCategory (name : String) : Option String :=
  ((scoresOf name).find? (fun q => q.2 == maxVal (scoresOf name))).map Prod.fst

/-- Sample row: a 식비 (Food) purchase of 4000 on day 2, date already
parsed. -/
def sampleFood : Record :=
  { date := .ts 2, category := "식비", product := "치킨", price := 4000,
    quantity := 1, unitPrice := 4000, totalPrice := 4000 }

/-- Sample row: a second 식비 purchase of 1500 on day 3. -/
def sampleFood2 : Record :=
  { date := .ts 3, category := "식비", product := "커피", price := 1500,
    quantity := 1, unitPrice := 1500, totalPrice := 1500 }

/-- Sample row: a 교통비 (Transport) purchase of 1500 on day 5. -/
def sampleTransport : Record :=
  { date := .ts 5, category := "교통비", product := "버스", price := 750,
    quantity := 2, unitPrice := 750, totalPrice := 1500 }

/-- Sample row whose date cell is still an unparsed string (for day 5). -/
def sampleRawDate : Record :=
  { date := .raw 5, category := "식비", product := "치킨", price := 4000,
    quantity := 1, unitPrice := 4000, totalPrice := 4000 }

/-- Sample row dated day -1 (in the previous window of a range starting
at day 0) whose recorded amount is 0. -/
def sampleZeroPrev : Record :=
  { date := .ts (-1), category := "식비", product := "커피", price := 0,
    quantity := 1, unitPrice := 0, totalPrice := 0 }

/-- Sample row: a 쇼핑 (Shopping) purchase of 5000 on day 1. -/
def sampleShopping : Record :=
  { date := .ts 1, category := "쇼핑", product := "옷", price := 5000,
    quantity := 1, unitPrice := 5000, totalPrice := 5000 }

/-- Dataset with a zero-amount row in the previous window of the range
`[0, 10]` and a 5000 purchase inside the range. -/
def dfZeroPrev : List Record := [sampleZeroPrev, sampleShopping]

/-- Dataset with two 50-unit purchases on days 0 and 1 (used to separate
the record-span daily average from the requested-range daily average over
the range `[0, 9]`). -/
def dfSparse : List Record :=
  [{ date := .ts 0, category := "식비", product := "점심", price := 50,
     quantity := 1, unitPrice := 50, totalPrice := 50 },
   { date := .ts 1, category := "식비", product := "저녁", price := 50,
     quantity := 1, unitPrice := 50, totalPrice := 50 }]

/-- The single category-detail line produced for `sampleFood` over
`[0, 10]` when the query names 식비 and 교통비. -/
def foodLine : CatLine :=
  { category := "식비", amount := 4000, share := 100, cmp := CatCmp.noPrev }

section MaxLemmas

/-- Every entry's score is bounded by the running maximum. -/
lemma mem_le_maxVal {x : String × Nat} {l : List (String × Nat)} (hx : x ∈ l) :
    x.2 ≤ maxVal l := by
  induction l with
  | nil => cases hx
  | cons p t ih =>
    rcases List.mem_cons.mp hx with h | h
    · subst h; exact Nat.le_max_left _ _
    · exact le_trans (ih h) (Nat.le_max_right _ _)

/-- If every score in the list is 0, the maximum is 0. -/
lemma maxVal_zero {l : List (String × Nat)} (h : ∀ p ∈ l, p.2 = 0) : maxVal l = 0 := by
  induction l with
  | nil => rfl
  | cons p t ih =>
    simp only [maxVal, Nat.max_eq_zero_iff]
    exact ⟨h p (List.mem_cons_self p t), ih (fun x hx => h x (List.mem_cons_of_mem p hx))⟩

/-- Python's `max(..., key=...)` over `p :: l` returns exactly the first
entry whose score equals the maximal score. -/
lemma pyMaxFold_find? :
    ∀ (l : List (String × Nat)) (p : String × Nat),
      (p :: l).find? (fun q => q.2 == max p.2 (maxVal l)) = some (pyMaxFold p l) := by
  intro l
  induction l with
  | nil =>
    intro p
    simp [pyMaxFold, maxVal]
  | cons q t ih =>
    intro p
    have hfold : pyMaxFold p (q :: t) = pyMaxFold (if p.2 < q.2 then q else p) t := rfl
    by_cases hpq : p.2 < q.2
    · have hkey : max p.2 (maxVal (q :: t)) = max q.2 (maxVal t) := by
        simp only [maxVal]
        exact Nat.max_eq_right (le_trans (Nat.le_of_lt hpq) (Nat.le_max_left _ _))
      have hp : p.2 ≠ max q.2 (maxVal t) :=
        Nat.ne_of_lt (lt_of_lt_of_le hpq (Nat.le_max_left _ _))
      rw [hfold, if_pos hpq, hkey, List.find?_cons_of_neg _ (by simp [hp])]
      exact ih q
    · have hqp : q.2 ≤ p.2 := Nat.le_of_not_lt hpq
      have hkey : max p.2 (maxVal (q :: t)) = max p.2 (maxVal t) := by
        simp only [maxVal, ← Nat.max_assoc, Nat.max_eq_left hqp]
      rw [hfold, if_neg hpq, hkey]
      by_cases hp : p.2 = max p.2 (maxVal t)
      · have hfind := ih p
        rw [List.find?_cons_of_pos _ (by rw [← hp]; simp)] at hfind ⊢
        exact hfind
      · have hle : p.2 ≤ max p.2 (maxVal t) := Nat.le_max_left _ _
        have hq : q.2 ≠ max p.2 (maxVal t) := by omega
        have hfind := ih p
        rw [List.find?_cons_of_neg _ (by simp [hp])] at hfind
        rw [List.find?_cons_of_neg _ (by simp [hp]), List.find?_cons_of_neg _ (by simp [hq])]
        exact hfind

/-- The selected entry is one of the entries. -/
lemma pyMaxFold_mem (p : String × Nat) (l : List (String × Nat)) :
    pyMaxFold p l ∈ p :: l :=
  List.mem_of_find?_eq_some (pyMaxFold_find? l p)

/-- The selected entry attains the maximal score. -/
lemma pyMaxFold_val (p : String × Nat) (l : List (String × Nat)) :
    (pyMaxFold p l).2 = max p.2 (maxVal l) := by
  have h := List.find?_some (pyMaxFold_find? l p)
  simpa using h

/-- If an entry `(c, k)` strictly dominates every entry with a different
key, Python's `max(..., key=...)` returns `c`. -/
lemma pyMaxOf_strict {scores : List (String × Nat)} {c : String} {k : Nat}
    (hmem : (c, k) ∈ scores) (hdom : ∀ p ∈ scores, p.1 ≠ c → p.2 < k) :
    pyMaxOf scores = c := by
  match scores, hmem with
  | p :: l, hmem =>
    have hv : (pyMaxFold p l).2 = maxVal (p :: l) := pyMaxFold_val p l
    have hm : pyMaxFold p l ∈ p :: l := pyMaxFold_mem p l
    by_cases hc : (pyMaxFold p l).1 = c
    · exact hc
    · exfalso
      have hlt : (pyMaxFold p l).2 < k := hdom _ hm hc
      have hle : k ≤ maxVal (p :: l) := mem_le_maxVal hmem
      omega

/-- The selected key is one of the keys. -/
lemma pyMaxOf_mem_keys {scores : List (String × Nat)} (hne : scores ≠ []) :
    pyMaxOf scores ∈ scores.map Prod.fst := by
  match scores, hne with
  | p :: l, _ => exact List.mem_map_of_mem Prod.fst (pyMaxFold_mem p l)

end MaxLemmas

section ClassifierLemmas

/-- The scores list always has the table's 8 entries. -/
lemma scoresOf_ne_nil (name : String) : scoresOf name ≠ [] := by
  simp [scoresOf, CATEGORY_KEYWORDS]

/-- The score keys are the table keys, in declaration order. -/
lemma scoresOf_keys (name : String) :
    (scoresOf name).map Prod.fst = CATEGORY_KEYWORDS.map Prod.fst := rfl

/-- The empty product name scores 0 everywhere. -/
lemma scoresOf_empty_zero : ∀ p ∈ scoresOf "", p.2 = 0 := by decide

/-- On a nonempty name with a positive maximal score, `recommend_category`
returns Python's `max(scores, key=scores.get)`. -/
lemma recommend_eq_pyMaxOf {name : String} (hne : name ≠ "")
    (hpos : 0 < maxVal (scoresOf name)) :
    recommend_category name = pyMaxOf (scoresOf name) := by
  simp [recommend_category, hne, hpos]

end ClassifierLemmas

/-- C1: for every product name, `classify` scores each of the 7 non-"기타"
categories by how many of its keywords occur as substrings of the
lower-cased product name (each keyword contributing at most 1: presence,
not frequency), returns the category with the strictly highest score, and
returns "기타" (Other) whenever all scores are 0, including on the empty
input; the result is always one of the 8 table categories. -/
theorem claim_C1 (name : String) :
    recommend_category "" = "기타"
  ∧ ((∀ p ∈ scoresOf name, p.2 = 0) → recommend_category name = "기타")
  ∧ (∀ c k, (c, k) ∈ scoresOf name → 0 < k →
      (∀ p ∈ scoresOf name, p.1 ≠ c → p.2 < k) → recommend_category name = c)
  ∧ (∀ c kws, (c, kws) ∈ CATEGORY_KEYWORDS →
      (c, scoreAgainst (toLowerChars name) kws) ∈ scoresOf name
      ∧ scoreAgainst (toLowerChars name) kws ≤ kws.length)
  ∧ recommend_category name ∈ CATEGORY_KEYWORDS.map Prod.fst := by
  refine ⟨by decide, ?_, ?_, ?_, ?_⟩
  · intro hz
    by_cases hne : name = ""
    · subst hne; decide
    · have h0 : maxVal (scoresOf name) = 0 := maxVal_zero hz
      simp [recommend_category, hne, h0]
  · intro c k hmem hpos hdom
    by_cases hne : name = ""
    · exfalso
      subst hne
      have := scoresOf_empty_zero _ hmem
      omega
    · have hposmax : 0 < maxVal (scoresOf name) := lt_of_lt_of_le hpos (mem_le_maxVal hmem)
      rw [recommend_eq_pyMaxOf hne hposmax]
      exact pyMaxOf_strict hmem hdom
  · intro c kws hmem
    exact ⟨List.mem_map_of_mem _ hmem, List.countP_le_length _⟩
  · by_cases hne : name = ""
    · subst hne; decide
    · by_cases hpos : 0 < maxVal (scoresOf name)
      · rw [recommend_eq_pyMaxOf hne hpos, ← scoresOf_keys name]
        exact pyMaxOf_mem_keys (scoresOf_ne_nil name)
      · have : recommend_category name = "기타" := by
          simp [recommend_category, hne, hpos]
        rw [this]; decide

/-- C1 witness: "치킨" (chicken) matches only the Food keyword list, so it
is classified 식비; a name matching nothing is classified 기타. -/
theorem claim_C1_witness :
    recommend_category "" = "기타"
  ∧ recommend_category "치킨" = "식비"
  ∧ recommend_category "xyz" = "기타" :=
  ⟨(claim_C1 "").1,
   (claim_C1 "치킨").2.2.1 "식비" 1 (by decide) (by decide) (by decide),
   (claim_C1 "xyz").2.1 (by decide)⟩

/-- C8: when two distinct categories share the maximal positive score, the
classifier returns the first table entry (in the fixed declaration order
식비, 교통비, 쇼핑, 생활비, 의료, 교육, 오락, 기타) attaining the maximal
score, i.e. the spec's declaration-order tie-break. -/
theorem claim_C8 (name c₁ c₂ : String) (k : Nat)
    (h₁ : (c₁, k) ∈ scoresOf name) (h₂ : (c₂, k) ∈ scoresOf name) (hne : c₁ ≠ c₂)
    (hmax : k = maxVal (scoresOf name)) (hpos : 0 < k) :
    some (recommend_category name) = firstMaxCategory name
  ∧ (scoresOf name).map Prod.fst =
      ["식비", "교통비", "쇼핑", "생활비", "의료", "교육", "오락", "기타"] := by
  have hname : name ≠ "" := by
    rintro rfl
    have := scoresOf_empty_zero _ h₁
    omega
  have hposmax : 0 < maxVal (scoresOf name) := hmax ▸ hpos
  refine ⟨?_, rfl⟩
  obtain ⟨p, l, hpl⟩ : ∃ p l, scoresOf name = p :: l := by
    cases hs : scoresOf name with
    | nil => exact absurd hs (scoresOf_ne_nil name)
    | cons p l => exact ⟨p, l, rfl⟩
  have hfind : (p :: l).find? (fun q => q.2 == maxVal (p :: l)) = some (pyMaxFold p l) :=
    pyMaxFold_find? l p
  rw [recommend_eq_pyMaxOf hname hposmax, hpl]
  show some (pyMaxOf (p :: l)) =
    ((scoresOf name).find? (fun q => q.2 == maxVal (scoresOf name))).map Prod.fst
  rw [hpl, hfind]
  rfl

/-- C8 witness: "버스옷" matches one Transport keyword (버스) and one
Shopping keyword (옷); the tie is broken towards 교통비, the earlier table
entry. -/
theorem claim_C8_witness :
    some (recommend_category "버스옷") = firstMaxCategory "버스옷"
  ∧ (scoresOf "버스옷").map Prod.fst =
      ["식비", "교통비", "쇼핑", "생활비", "의료", "교육", "오락", "기타"] :=
  claim_C8 "버스옷" "교통비" "쇼핑" 1 (by decide) (by decide) (by decide)
    (by decide) (by decide)

/-- C7: with quantity at least 1, the price calculator satisfies
`total_price = unit_price * quantity` in per-unit mode and
`unit_price = total_price / quantity` in total mode. -/
theorem claim_C7 (price : ℚ) (quantity : Int) (h : 1 ≤ quantity) :
    (calculate_price price quantity "unit").2 =
      (calculate_price price quantity "unit").1 * (quantity : ℚ)
  ∧ (calculate_price price quantity "total").1 =
      (calculate_price price quantity "total").2 / (quantity : ℚ) := by
  have hq : 0 < quantity := by omega
  constructor
  · simp [calculate_price, hq]
  · simp [calculate_price, hq]

/-- C7 witness: price 100, quantity 4 in both modes. -/
theorem claim_C7_witness :
    (calculate_price 100 4 "unit").2 = (calculate_price 100 4 "unit").1 * ((4 : Int) : ℚ)
  ∧ (calculate_price 100 4 "total").1 = (calculate_price 100 4 "total").2 / ((4 : Int) : ℚ) :=
  claim_C7 100 4 (by decide)

/-- C2: for `start_date ≤ end_date`, the previous window used by
`ai_analysis` has length `period_days = max(days_between(start, end), 1)`
and is exactly the half-open interval `[start - period_days, start)` over
the (re-parsed) dataset; in particular it contains no record dated on or
after `start_date`. -/
theorem claim_C2 (df : List Record) (s e : Int) (h : s ≤ e) :
    periodDays s e = max (daysBetween s e) 1
  ∧ (∀ r, r ∈ prevWindow df s e ↔
      r ∈ parsedOf df ∧ s - periodDays s e ≤ r.date.parse ∧ r.date.parse < s)
  ∧ (∀ r ∈ prevWindow df s e, r.date.parse < s) := by
  have hmem : ∀ r, r ∈ prevWindow df s e ↔
      r ∈ parsedOf df ∧ s - periodDays s e ≤ r.date.parse ∧ r.date.parse < s := by
    intro r
    simp [prevWindow, List.mem_filter, and_assoc]
  exact ⟨rfl, hmem, fun r hr => ((hmem r).mp hr).2.2⟩

/-- C2 witness: the dataset `dfZeroPrev` with the range `[0, 3]`. -/
theorem claim_C2_witness :
    periodDays 0 3 = max (daysBetween 0 3) 1
  ∧ (∀ r, r ∈ prevWindow dfZeroPrev 0 3 ↔
      r ∈ parsedOf dfZeroPrev ∧ 0 - periodDays 0 3 ≤ r.date.parse ∧ r.date.parse < 0)
  ∧ (∀ r ∈ prevWindow dfZeroPrev 0 3, r.date.parse < 0) :=
  claim_C2 dfZeroPrev 0 3 (by decide)

/-- C5: on an empty dataset, an empty date-range filter result, or an
empty category-filter result, `analyze_expenditure` returns one of the
three explicit "no data" outcomes, never a (zero-valued or other)
report. -/
theorem claim_C5 (df : List Record) (s e : Int) (filter? : Option String)
    (h : df = [] ∨ filteredBy df s e = []
        ∨ applyCategoryFilter filter? (filteredBy df s e) = []) :
    ((analyze_expenditure df s e filter?).1 = AnalyzeResult.noData
      ∨ (analyze_expenditure df s e filter?).1 = AnalyzeResult.noDataInPeriod
      ∨ (analyze_expenditure df s e filter?).1 = AnalyzeResult.noDataMatching)
  ∧ ∀ t a c bc tp,
      (analyze_expenditure df s e filter?).1 ≠ AnalyzeResult.report t a c bc tp := by
  by_cases h1 : df.isEmpty
  · refine ⟨Or.inl ?_, fun t a c bc tp => ?_⟩ <;> simp [analyze_expenditure, h1]
  · by_cases h2 : (filteredBy df s e).isEmpty
    · refine ⟨Or.inr (Or.inl ?_), fun t a c bc tp => ?_⟩ <;>
        simp [analyze_expenditure, h1, h2]
    · by_cases h3 : (applyCategoryFilter filter? (filteredBy df s e)).isEmpty
      · refine ⟨Or.inr (Or.inr ?_), fun t a c bc tp => ?_⟩ <;>
          simp [analyze_expenditure, h1, h2, h3]
      · exfalso
        rcases h with h | h | h
        · exact h1 (by simp [h])
        · exact h2 (by simp [h])
        · exact h3 (by simp [h])

/-- C5 witness: the empty dataset. -/
theorem claim_C5_witness :
    ((analyze_expenditure [] 0 1 none).1 = AnalyzeResult.noData
      ∨ (analyze_expenditure [] 0 1 none).1 = AnalyzeResult.noDataInPeriod
      ∨ (analyze_expenditure [] 0 1 none).1 = AnalyzeResult.noDataMatching)
  ∧ ∀ t a c bc tp, (analyze_expenditure [] 0 1 none).1 ≠ AnalyzeResult.report t a c bc tp :=
  claim_C5 [] 0 1 none (Or.inl rfl)

section SumLemmas

/-- Summing a pointwise sum of two maps splits into two sums. -/
lemma map_add_sum (cs : List String) (f g : String → ℚ) :
    (cs.map (fun c => f c + g c)).sum = (cs.map f).sum + (cs.map g).sum := by
  induction cs with
  | nil => simp
  | cons x t ih => simp only [List.map_cons, List.sum_cons, ih]; ring

/-- Over a duplicate-free key list containing `a`, an indicator sum
collapses to the single value at `a`. -/
lemma sum_single_of_mem :
    ∀ (cs : List String), cs.Nodup → ∀ a ∈ cs, ∀ v : ℚ,
      (cs.map (fun c => if a = c then v else 0)).sum = v := by
  intro cs
  induction cs with
  | nil => intro _ a ha; cases ha
  | cons x t ih =>
    intro hnd a ha v
    rcases List.mem_cons.mp ha with rfl | hat
    · simp only [List.map_cons, List.sum_cons, if_pos rfl]
      have hzero : (t.map (fun c => if a = c then v else 0)).sum = 0 := by
        apply List.sum_eq_zero
        intro y hy
        obtain ⟨c, hc, rfl⟩ := List.mem_map.mp hy
        have hac : a ≠ c := by
          rintro rfl
          exact (List.nodup_cons.mp hnd).1 hc
        simp [hac]
      rw [hzero, add_zero]
      simp
    · have hax : a ≠ x := by
        rintro rfl
        exact (List.nodup_cons.mp hnd).1 hat
      simp only [List.map_cons, List.sum_cons, if_neg hax]
      rw [ih (List.nodup_cons.mp hnd).2 a hat v, zero_add]

/-- Grouping a dataset's amounts by a duplicate-free key list covering all
its categories partitions the grand total. -/
lemma sum_totalOf_filter :
    ∀ (rs : List Record) (cs : List String), cs.Nodup →
      (∀ r ∈ rs, r.category ∈ cs) →
      (cs.map (fun c => totalOf (rs.filter (fun r => r.category = c)))).sum = totalOf rs := by
  intro rs
  induction rs with
  | nil =>
    intro cs _ _
    have : ∀ y ∈ cs.map (fun c => totalOf (List.filter (fun r => decide (r.category = c)) [])), y = 0 := by
      intro y hy
      obtain ⟨c, _, rfl⟩ := List.mem_map.mp hy
      rfl
    simpa [totalOf] using List.sum_eq_zero this
  | cons r t ih =>
    intro cs hnd hsub
    have hr : r.category ∈ cs := hsub r (List.mem_cons_self _ _)
    have hstep : ∀ c : String, totalOf ((r :: t).filter (fun x => x.category = c))
        = (if r.category = c then r.totalPrice else 0)
          + totalOf (t.filter (fun x => x.category = c)) := by
      intro c
      by_cases hc : r.category = c
      · simp [List.filter_cons, hc, totalOf]
      · simp [List.filter_cons, hc]
    have hmapeq :
        (cs.map (fun c => totalOf ((r :: t).filter (fun x => x.category = c)))).sum
          = (cs.map (fun c => (if r.category = c then r.totalPrice else 0)
              + totalOf (t.filter (fun x => x.category = c)))).sum := by
      congr 1
      exact List.map_congr_left (fun c _ => hstep c)
    rw [hmapeq, map_add_sum, sum_single_of_mem cs hnd _ hr,
      ih cs hnd (fun x hx => hsub x (List.mem_cons_of_mem _ hx))]
    simp [totalOf]

/-- The per-category sums of `categorySums` add up to the grand total. -/
lemma sum_categorySums (rs : List Record) :
    ((categorySums rs).map Prod.snd).sum = totalOf rs := by
  have h := sum_totalOf_filter rs ((rs.map (fun r => r.category)).dedup)
    (List.nodup_dedup _) (fun r hr => List.mem_dedup.mpr (List.mem_map_of_mem _ hr))
  rw [categorySums, List.map_map]
  exact h

end SumLemmas

/-- C6: with no category filter and a non-empty date-range result,
`analyze_expenditure` reports exactly the aggregates of the filtered rows,
and the per-category amounts of `by_category` sum to the reported
total. -/
theorem claim_C6 (df : List Record) (s e : Int)
    (h1 : ¬ df.isEmpty) (h2 : ¬ (filteredBy df s e).isEmpty) :
    (analyze_expenditure df s e none).1 =
      AnalyzeResult.report (totalOf (filteredBy df s e))
        (totalOf (filteredBy df s e) / ((filteredBy df s e).length : ℚ))
        (filteredBy df s e).length
        (categorySums (filteredBy df s e))
        (productFrequency (filteredBy df s e))
  ∧ ((categorySums (filteredBy df s e)).map Prod.snd).sum
      = totalOf (filteredBy df s e) := by
  constructor
  · simp [analyze_expenditure, h1, h2, applyCategoryFilter]
  · exact sum_categorySums _

/-- C6 witness: Food 4000 on day 2 and Transport 1500 on day 5 over the
range `[0, 10]`. -/
theorem claim_C6_witness :
    (analyze_expenditure [sampleFood, sampleTransport] 0 10 none).1 =
      AnalyzeResult.report (totalOf (filteredBy [sampleFood, sampleTransport] 0 10))
        (totalOf (filteredBy [sampleFood, sampleTransport] 0 10)
          / ((filteredBy [sampleFood, sampleTransport] 0 10).length : ℚ))
        (filteredBy [sampleFood, sampleTransport] 0 10).length
        (categorySums (filteredBy [sampleFood, sampleTransport] 0 10))
        (productFrequency (filteredBy [sampleFood, sampleTransport] 0 10))
  ∧ ((categorySums (filteredBy [sampleFood, sampleTransport] 0 10)).map Prod.snd).sum
      = totalOf (filteredBy [sampleFood, sampleTransport] 0 10) :=
  claim_C6 [sampleFood, sampleTransport] 0 10 (by decide) (by decide)

section AnalysisLemmas

/-- On the non-degenerate path, `ai_analysis` produces the report body. -/
lemma ai_analysis_report {df : List Record} {s e : Int} (q : String)
    (h1 : ¬ df.isEmpty) (h2 : ¬ (filteredBy df s e).isEmpty) :
    (ai_analysis df s e q).1 = AiResult.report (mkReport df s e q) := by
  simp [ai_analysis, h1, h2]

/-- The dataset as seen by the caller after `analyze_expenditure`: intact
only on the empty-dataset early return, re-parsed otherwise. -/
lemma analyze_expenditure_snd (df : List Record) (s e : Int) (filter? : Option String) :
    (analyze_expenditure df s e filter?).2 = if df.isEmpty then df else parsedOf df := by
  by_cases h1 : df.isEmpty
  · simp [analyze_expenditure, h1]
  · by_cases h2 : (filteredBy df s e).isEmpty
    · simp [analyze_expenditure, h1, h2]
    · by_cases h3 : (applyCategoryFilter filter? (filteredBy df s e)).isEmpty
      · simp [analyze_expenditure, h1, h2, h3]
      · simp [analyze_expenditure, h1, h2, h3]

/-- The dataset as seen by the caller after `ai_analysis`: intact only on
the empty-dataset early return, re-parsed otherwise. -/
lemma ai_analysis_snd (df : List Record) (s e : Int) (q : String) :
    (ai_analysis df s e q).2 = if df.isEmpty then df else parsedOf df := by
  by_cases h1 : df.isEmpty
  · simp [ai_analysis, h1]
  · by_cases h2 : (filteredBy df s e).isEmpty
    · simp [ai_analysis, h1, h2]
    · simp [ai_analysis, h1, h2]

/-- Re-parsing a row whose date is already a `Timestamp` is the
identity. -/
lemma parseRecordDate_self {r : Record} (h : r.date.isParsed = true) :
    parseRecordDate r = r := by
  cases r with
  | mk date cat prod price qty up tp =>
    cases date with
    | raw d => simp [DateVal.isParsed] at h
    | ts d => rfl

/-- Re-parsing a dataset whose dates are all `Timestamp`s is the
identity. -/
lemma parsedOf_self {df : List Record} (h : ∀ r ∈ df, r.date.isParsed = true) :
    parsedOf df = df := by
  induction df with
  | nil => rfl
  | cons r t ih =>
    have ht : List.map parseRecordDate t = t := ih (fun x hx => h x (List.mem_cons_of_mem _ hx))
    simp only [parsedOf, List.map_cons]
    rw [parseRecordDate_self (h r (List.mem_cons_self _ _)), ht]

/-- A successful association-list lookup over a keyed map means the key
occurs in the key list. -/
lemma lookup_pair_mem {β : Type} :
    ∀ (cs : List String) (g : String → β) (c : String) (a : β),
      ((cs.map (fun x => (x, g x))).lookup c) = some a → c ∈ cs := by
  intro cs g c a
  induction cs with
  | nil => intro h; simp [List.lookup] at h
  | cons x t ih =>
    intro h
    by_cases hcx : c = x
    · exact hcx ▸ List.mem_cons_self _ _
    · refine List.mem_cons_of_mem _ (ih ?_)
      have hbeq : (c == x) = false := by simp [hcx]
      simpa [List.lookup, hbeq] using h

/-- A successful lookup in `categorySums` means some row of the dataset
has that category. -/
lemma mem_of_lookup_categorySums {rs : List Record} {c : String} {a : ℚ}
    (h : (categorySums rs).lookup c = some a) : ∃ r ∈ rs, r.category = c := by
  have hc : c ∈ (rs.map (fun r => r.category)).dedup := lookup_pair_mem _ _ c a h
  obtain ⟨r, hr, hrc⟩ := List.mem_map.mp (List.mem_dedup.mp hc)
  exact ⟨r, hr, hrc⟩

/-- A produced category-detail line names its category and that category
has at least one row in the current window. -/
lemma catLineFor_some {df : List Record} {s e : Int} {c : String} {ln : CatLine}
    (h : catLineFor df s e c = some ln) :
    ln.category = c ∧ ∃ r ∈ filteredBy df s e, r.category = c := by
  cases hlk : (categorySums (filteredBy df s e)).lookup c with
  | none => rw [catLineFor, hlk] at h; cases h
  | some amount =>
    rw [catLineFor, hlk] at h
    have hln : ln.category = c := by
      cases h
      rfl
    exact ⟨hln, mem_of_lookup_categorySums hlk⟩

end AnalysisLemmas

/-- C3: whenever the current window is non-empty, the daily average of the
trend section equals the current-window total divided by
`max(span_of_filtered_records + 1, 1)`, the span being taken over the
filtered records themselves; moreover there are inputs on which this
differs from dividing by the span of the requested range, so the
record-span denominator is not interchangeable with the range-span
one. -/
theorem claim_C3 (df : List Record) (s e : Int) (q : String)
    (h1 : ¬ df.isEmpty) (h2 : ¬ (filteredBy df s e).isEmpty) :
    (trendOf (ai_analysis df s e q).1).map TrendSummary.dailyAvg
      = some (totalOf (filteredBy df s e) / ((currentDays (filteredBy df s e) : Int) : ℚ))
  ∧ currentDays (filteredBy df s e)
      = max ((maxDate (filteredBy df s e) - minDate (filteredBy df s e)) + 1) 1
  ∧ ∃ df' : List Record, ∃ s' e' : Int, ∃ q' : String,
      ¬ df'.isEmpty ∧ ¬ (filteredBy df' s' e').isEmpty ∧
      (trendOf (ai_analysis df' s' e' q').1).map TrendSummary.dailyAvg
        ≠ some (totalOf (filteredBy df' s' e') / ((max (e' - s' + 1) 1 : Int) : ℚ)) := by
  refine ⟨?_, rfl, ?_⟩
  · rw [ai_analysis_report q h1 h2]
    rfl
  · refine ⟨dfSparse, 0, 9, "", by decide, by decide, ?_⟩
    rw [ai_analysis_report "" (by decide) (by decide)]
    norm_num [mkReport, trendOf, filteredBy, parsedOf, parseRecordDate, DateVal.parse,
      totalOf, currentDays, maxDate, minDate, dfSparse, List.filter]

/-- C3 witness: two 50-unit purchases on days 0 and 1 queried over
`[0, 9]`: the reported daily average divides by the 2-day record span. -/
theorem claim_C3_witness :
    (trendOf (ai_analysis dfSparse 0 9 "추세").1).map TrendSummary.dailyAvg
      = some (totalOf (filteredBy dfSparse 0 9) / ((currentDays (filteredBy dfSparse 0 9) : Int) : ℚ))
  ∧ currentDays (filteredBy dfSparse 0 9)
      = max ((maxDate (filteredBy dfSparse 0 9) - minDate (filteredBy dfSparse 0 9)) + 1) 1
  ∧ ∃ df' : List Record, ∃ s' e' : Int, ∃ q' : String,
      ¬ df'.isEmpty ∧ ¬ (filteredBy df' s' e').isEmpty ∧
      (trendOf (ai_analysis df' s' e' q').1).map TrendSummary.dailyAvg
        ≠ some (totalOf (filteredBy df' s' e') / ((max (e' - s' + 1) 1 : Int) : ℚ)) :=
  claim_C3 dfSparse 0 9 "추세" (by decide) (by decide)

/-- C4 counterexample: with a zero-amount row in the previous window and a
5000 current total, the previous-window total is 0 yet the trend section
states "이전 기간에는 지출이 없었습니다" (the previous period had no
spending), not the claimed "비교 가능한 이전 기간 데이터가 없습니다" (no
comparable previous-period data). -/
theorem claim_C4_counterexample :
    totalOf (prevWindow dfZeroPrev 0 10) = 0
  ∧ (trendOf (ai_analysis dfZeroPrev 0 10 "지출 비교").1).map TrendSummary.total = some 5000
  ∧ trendCmpOf (ai_analysis dfZeroPrev 0 10 "지출 비교").1 = some TrendCmp.prevNoSpending
  ∧ TrendCmp.prevNoSpending ≠ TrendCmp.noComparable := by
  have hprev : prevWindow dfZeroPrev 0 10 = [sampleZeroPrev] := by decide
  refine ⟨?_, ?_, ?_, by decide⟩
  · rw [hprev]
    norm_num [totalOf, sampleZeroPrev]
  · rw [ai_analysis_report "지출 비교" (by decide) (by decide)]
    norm_num [mkReport, trendOf, filteredBy, parsedOf, parseRecordDate, DateVal.parse,
      totalOf, dfZeroPrev, sampleZeroPrev, sampleShopping, List.filter]
  · rw [trendCmpOf, ai_analysis_report "지출 비교" (by decide) (by decide)]
    have hne : ¬ (prevWindow dfZeroPrev 0 10).isEmpty := by decide
    norm_num [mkReport, trendOf, hne, hprev, totalOf, sampleZeroPrev]

/-- C4, amended: when the previous-window total is 0 the trend section
never reports a percentage; it states that no comparable previous-period
data exists exactly when the previous window holds no records at all, and
that the previous period had no spending when the previous window holds
records totalling 0. -/
theorem claim_C4 (df : List Record) (s e : Int) (q : String)
    (h1 : ¬ df.isEmpty) (h2 : ¬ (filteredBy df s e).isEmpty)
    (h0 : totalOf (prevWindow df s e) = 0) :
    (∀ x, trendCmpOf (ai_analysis df s e q).1 ≠ some (TrendCmp.pct x))
  ∧ (prevWindow df s e = [] →
      trendCmpOf (ai_analysis df s e q).1 = some TrendCmp.noComparable)
  ∧ (prevWindow df s e ≠ [] →
      trendCmpOf (ai_analysis df s e q).1 = some TrendCmp.prevNoSpending) := by
  have hrw : trendCmpOf (ai_analysis df s e q).1 = some (mkReport df s e q).trend.cmp := by
    rw [trendCmpOf, ai_analysis_report q h1 h2]
    rfl
  have hcmp : (mkReport df s e q).trend.cmp
      = if (prevWindow df s e).isEmpty then TrendCmp.noComparable
        else if 0 < totalOf (prevWindow df s e) then
          TrendCmp.pct ((totalOf (filteredBy df s e) - totalOf (prevWindow df s e))
            / totalOf (prevWindow df s e) * 100)
        else TrendCmp.prevNoSpending := rfl
  by_cases hp : (prevWindow df s e).isEmpty
  · have hval : (mkReport df s e q).trend.cmp = TrendCmp.noComparable := by
      rw [hcmp, if_pos hp]
    refine ⟨?_, ?_, ?_⟩
    · intro x
      rw [hrw, hval]
      simp
    · intro _
      rw [hrw, hval]
    · intro hne
      exact absurd (List.isEmpty_iff.mp hp) hne
  · have hval : (mkReport df s e q).trend.cmp = TrendCmp.prevNoSpending := by
      rw [hcmp, if_neg hp, if_neg (by rw [h0]; exact lt_irrefl 0)]
    refine ⟨?_, ?_, ?_⟩
    · intro x
      rw [hrw, hval]
      simp
    · intro hnil
      exact absurd (by simp [hnil] : (prevWindow df s e).isEmpty = true) hp
    · intro _
      rw [hrw, hval]

/-- C4 witness: the zero-amount-previous-window dataset, exercising the
amended claim's nonempty-previous-window branch. -/
theorem claim_C4_witness :
    trendCmpOf (ai_analysis dfZeroPrev 0 10 "지출 비교").1 = some TrendCmp.prevNoSpending :=
  (claim_C4 dfZeroPrev 0 10 "지출 비교" (by decide) (by decide)
    (by rw [show prevWindow dfZeroPrev 0 10 = [sampleZeroPrev] from by decide]
        norm_num [totalOf, sampleZeroPrev])).2.2 (by decide)

/-- C9 counterexample: on a dataset whose date column holds a raw string,
both `analyze_expenditure` and `ai_analysis` hand back a dataset whose
date cell has been replaced by the parsed `Timestamp`, so the caller's
dataset is not identical before and after the call. -/
theorem claim_C9_counterexample :
    (analyze_expenditure [sampleRawDate] 0 10 none).2 ≠ [sampleRawDate]
  ∧ (ai_analysis [sampleRawDate] 0 10 "지출 분석").2 ≠ [sampleRawDate] := by
  constructor
  · rw [analyze_expenditure_snd]
    decide
  · rw [ai_analysis_snd]
    decide

/-- C9, amended: the result of each operation depends only on its
arguments, but the dataset handed back to the caller is re-parsed in
place whenever it is non-empty; it is unchanged exactly when every date
cell is already a parsed `Timestamp` (or the dataset is empty). -/
theorem claim_C9 (df : List Record) (s e : Int) (filter? : Option String) (q : String) :
    ((analyze_expenditure df s e filter?).2 = if df.isEmpty then df else parsedOf df)
  ∧ ((ai_analysis df s e q).2 = if df.isEmpty then df else parsedOf df)
  ∧ ((∀ r ∈ df, r.date.isParsed = true) →
      (analyze_expenditure df s e filter?).2 = df ∧ (ai_analysis df s e q).2 = df) := by
  refine ⟨analyze_expenditure_snd df s e filter?, ai_analysis_snd df s e q, ?_⟩
  intro h
  rw [analyze_expenditure_snd, ai_analysis_snd, parsedOf_self h, ite_self]
  exact ⟨rfl, rfl⟩

/-- C9 witness: a dataset whose dates are already parsed is handed back
unchanged. -/
theorem claim_C9_witness :
    (analyze_expenditure [sampleFood] 0 10 none).2 = [sampleFood]
  ∧ (ai_analysis [sampleFood] 0 10 "지출").2 = [sampleFood] :=
  (claim_C9 [sampleFood] 0 10 none "지출").2.2 (by decide)

/-- C10: when a category-detail section is produced, every line belongs to
a category with at least one row in the current window (and, when the
query named categories, to a named category); a category with no row in
the current window gets no line. -/
theorem claim_C10 (df : List Record) (s e : Int) (q : String) (lines : List CatLine)
    (h : categoryDetailOf (ai_analysis df s e q).1 = some lines) :
    (∀ ln ∈ lines,
        (categoriesRequested q ≠ [] → ln.category ∈ categoriesRequested q)
      ∧ ∃ r ∈ filteredBy df s e, r.category = ln.category)
  ∧ ∀ c, (∀ r ∈ filteredBy df s e, r.category ≠ c) → ∀ ln ∈ lines, ln.category ≠ c := by
  by_cases h1 : df.isEmpty
  · simp [ai_analysis, h1, categoryDetailOf] at h
  by_cases h2 : (filteredBy df s e).isEmpty
  · simp [ai_analysis, h1, h2, categoryDetailOf] at h
  rw [ai_analysis_report q h1 h2] at h
  have hcd : (mkReport df s e q).categoryDetail
      = if ¬ (categoryFocus df s e q).isEmpty
            ∧ (wantsCategoryDetail q ∨ ¬ (categoriesRequested q).isEmpty)
        then some ((categoryFocus df s e q).take 5) else none := rfl
  rw [show categoryDetailOf (AiResult.report (mkReport df s e q))
      = (mkReport df s e q).categoryDetail from rfl, hcd] at h
  by_cases hgate : ¬ (categoryFocus df s e q).isEmpty
      ∧ (wantsCategoryDetail q ∨ ¬ (categoriesRequested q).isEmpty)
  swap
  · rw [if_neg hgate] at h
    cases h
  rw [if_pos hgate] at h
  have hlines : lines = (categoryFocus df s e q).take 5 := by
    cases h
    rfl
  have hline : ∀ ln ∈ lines, ∃ c, c ∈ focusCategories df s e q ∧ catLineFor df s e c = some ln := by
    intro ln hln
    have hmem : ln ∈ categoryFocus df s e q :=
      List.take_subset 5 _ (hlines ▸ hln)
    exact List.mem_filterMap.mp hmem
  constructor
  · intro ln hln
    obtain ⟨c, hcf, hcl⟩ := hline ln hln
    obtain ⟨hlc, hex⟩ := catLineFor_some hcl
    constructor
    · intro hreq
      have hreq' : ¬ (categoriesRequested q).isEmpty := by simp [List.isEmpty_iff, hreq]
      rw [focusCategories, if_neg hreq'] at hcf
      rw [hlc]
      exact hcf
    · rw [hlc]
      exact hex
  · intro c hnone ln hln hlinc
    obtain ⟨c', hcf, hcl⟩ := hline ln hln
    obtain ⟨hlc, r, hr, hrc⟩ := catLineFor_some hcl
    exact hnone r hr (by rw [hrc, ← hlc, hlinc])

/-- C10 witness: the query "식비 교통비" names two categories over a
dataset holding only a Food purchase; the section has a single Food line
and the Transport category, having no current-window row, gets none. -/
theorem claim_C10_witness :
    (∀ ln ∈ [foodLine],
        (categoriesRequested "식비 교통비" ≠ [] →
          ln.category ∈ categoriesRequested "식비 교통비")
      ∧ ∃ r ∈ filteredBy [sampleFood] 0 10, r.category = ln.category)
  ∧ ∀ c, (∀ r ∈ filteredBy [sampleFood] 0 10, r.category ≠ c) →
      ∀ ln ∈ [foodLine], ln.category ≠ c :=
  claim_C10 [sampleFood] 0 10 "식비 교통비" [foodLine] (by
    norm_num [ai_analysis, mkReport, filteredBy, parsedOf, parseRecordDate, DateVal.parse,
      totalOf, prevWindow, periodDays, daysBetween, categoryDetailOf, sampleFood, foodLine,
      categorySums, categoriesRequested, toLowerChars, containsSub, charsPrefix,
      detailKeywords, prevCatAmount, currentDays, maxDate, minDate, categoryFocus,
      focusCategories, catLineFor, wantsCategoryDetail,
      CATEGORY_KEYWORDS, List.filter, List.isEmpty, List.dedup, List.filterMap, List.lookup]
    rfl)

end Household
